import Mathlib

/-!
Shallow embedding of the Hypernode GPU host agent (`agent.py`, embedded in the
quick-install script): GPU detection, host-info collection, the WebSocket
message handler, the heartbeat loop, the connect session and the `main`
entry point.  Python strings processed character-wise (nvidia-smi output)
are modelled as `List Char`; scalar JSON values as the inductive `Value`.
-/

namespace Hypernode

/-- A JSON value as the agent sees it.  The handler never inspects the inner
structure of an inbound value (it only compares the `type` field against
string literals and stores/echoes other fields verbatim), so a structured
JSON value (object or array) is represented opaquely by `comp` with an
identifying index. -/
inductive Value where
  | null : Value
  | str : String → Value
  | num : Int → Value
  | bool : Bool → Value
  | comp : Nat → Value
deriving DecidableEq, Repr

/-- A parsed JSON object (`json.loads` result when it is a dict):
an association list of fields.  Keys are unique in a parsed dict. -/
def Data := List (String × Value)

/-- `dict.get(key)`: the value of the first matching key, or `None`. -/
def pyGet : Data → String → Option Value
  | [], _ => none
  | (k, v) :: rest, key => if k = key then some v else pyGet rest key

/-- Python whitespace characters, as used by `str.strip()`. -/
def pyWs (c : Char) : Bool :=
  c = ' ' || c = '\t' || c = '\n' || c = '\r' || c = '\x0b' || c = '\x0c'

/-- `str.strip()`: drop leading and trailing whitespace. -/
def pyStrip (s : List Char) : List Char :=
  ((s.dropWhile pyWs).reverse.dropWhile pyWs).reverse

/-- `str.split(sep)` for a one-character separator: splits at every
occurrence and keeps empty pieces; the empty string yields `[[]]`. -/
def pySplitCh (sep : Char) : List Char → List (List Char)
  | [] => [[]]
  | c :: cs =>
    match pySplitCh sep cs with
    | [] => [[]]
    | w :: ws => if c = sep then [] :: w :: ws else (c :: w) :: ws

/-- One detected GPU: the dict `{'model': ..., 'vram': ...}` built by
`detect_gpus`. -/
structure Gpu where
  model : List Char
  vram : List Char
deriving DecidableEq, Repr

/-- The per-line loop body of `detect_gpus`: for each line of the stripped
nvidia-smi output, skip empty lines (`if line:`), split on commas, and when
there are at least two fields append `{'model': parts[0].strip(),
'vram': parts[1].strip()}`. -/
def parse_gpu_lines : List (List Char) → List Gpu
  | [] => []
  | line :: rest =>
    if line = [] then parse_gpu_lines rest
    else
      match pySplitCh ',' line with
      | p0 :: p1 :: _ => { model := pyStrip p0, vram := pyStrip p1 } :: parse_gpu_lines rest
      | _ => parse_gpu_lines rest

/-- `detect_gpus`: runs `nvidia-smi --query-gpu=name,memory.total
--format=csv,noheader`.  The subprocess outcome is `none` when any
exception is raised (`nvidia-smi` absent, timeout after 5s, ...) — the bare
`except: pass` swallows it and the accumulated (empty) list is returned —
and `some (returncode, stdout)` when the call returns.  Lines are parsed
only on returncode 0. -/
def detect_gpus (nv : Option (Int × List Char)) : List Gpu :=
  match nv with
  | none => []
  | some (rc, stdout) =>
    if rc = 0 then parse_gpu_lines (pySplitCh '\n' (pyStrip stdout)) else []

/-- Host environment read by `get_host_info`: `socket.gethostname()`,
`platform.system()`, `platform.release()`, `platform.machine()`. -/
structure HostEnv where
  hostname : String
  os : String
  os_version : String
  arch : String
deriving DecidableEq, Repr

/-- The dict returned by `get_host_info`. -/
structure HostInfo where
  hostname : String
  os : String
  os_version : String
  arch : String
  gpus : List Gpu
deriving DecidableEq, Repr

/-- `get_host_info`: collects host data and the detected GPUs. -/
def get_host_info (env : HostEnv) (nv : Option (Int × List Char)) : HostInfo :=
  { hostname := env.hostname
    os := env.os
    os_version := env.os_version
    arch := env.arch
    gpus := detect_gpus nv }

/-- Mutable agent state (`self.endpoint` is irrelevant to the protocol and
omitted): the registration token, `self.node_id` (None until a `registered`
message stores its `nodeId` field) and `self.running`. -/
structure AgentState where
  token : String
  node_id : Option Value
  running : Bool
deriving DecidableEq, Repr

/-- State right after `__init__`. -/
def initState (token : String) : AgentState :=
  { token := token, node_id := none, running := false }

/-- `self.node_id` as it is serialized into an outbound JSON message:
Python `None` becomes JSON `null`. -/
def nodeIdValue (s : AgentState) : Value :=
  (s.node_id).getD Value.null

/-- An outbound message, mirroring the three dicts the agent ever sends:
`{'type': 'register', 'token': ..., 'hostInfo': ...}`,
`{'type': 'heartbeat', 'nodeId': ..., 'timestamp': ...}` and
`{'type': 'jobResult', 'jobId': ..., 'nodeId': ..., 'status': ...,
'result': ...}`. -/
inductive OutMsg where
  | register (token : String) (hostInfo : HostInfo)
  | heartbeat (nodeId : Value) (timestamp : String)
  | jobResult (jobId : Value) (nodeId : Value) (status : String) (result : Value)
deriving DecidableEq, Repr

/-- The `type` field of an outbound message. -/
def OutMsg.typeTag : OutMsg → String
  | OutMsg.register _ _ => "register"
  | OutMsg.heartbeat _ _ => "heartbeat"
  | OutMsg.jobResult _ _ _ _ => "jobResult"

/-- The `jobId` field of an outbound message, when it has one. -/
def OutMsg.jobIdField : OutMsg → Option Value
  | OutMsg.jobResult j _ _ _ => some j
  | _ => none

/-- The `nodeId` field of an outbound `jobResult`, when present. -/
def OutMsg.nodeIdField : OutMsg → Option Value
  | OutMsg.jobResult _ n _ _ => some n
  | _ => none

/-- The `status` field of an outbound message, when it has one. -/
def OutMsg.statusField : OutMsg → Option String
  | OutMsg.jobResult _ _ st _ => some st
  | _ => none

/-- The `result` field of an outbound message, when it has one. -/
def OutMsg.resultField : OutMsg → Option Value
  | OutMsg.jobResult _ _ _ r => some r
  | _ => none

/-- An inbound wire message as `handle_message` receives it: either a parsed
JSON object, or `malformed` when the body of the `try` raises before
dispatch (`json.loads` fails, or the parse result is not a dict so
`data.get` raises). -/
inductive Raw where
  | parsed (data : Data)
  | malformed (e : String)

/-- `handle_message`: the whole body runs inside `try/except Exception`,
which logs and swallows every error, so a malformed message changes nothing
and sends nothing.  The `if/elif` chain on `data.get('type')`:
`registered` stores the message's `nodeId` field into `self.node_id`;
`job` sleeps 2 seconds and sends one `jobResult` with the echoed `jobId`
(JSON `null` when absent), the current `self.node_id`, status
`'completed'` and the fixed string result; `error` only logs; anything
else falls through silently. -/
def handle_message (s : AgentState) (raw : Raw) : AgentState × List OutMsg :=
  match raw with
  | Raw.malformed _ => (s, [])
  | Raw.parsed data =>
    let msg_type := pyGet data "type"
    if msg_type = some (Value.str "registered") then
      ({ s with node_id := pyGet data "nodeId" }, [])
    else if msg_type = some (Value.str "job") then
      (s, [OutMsg.jobResult ((pyGet data "jobId").getD Value.null) (nodeIdValue s)
            "completed" (Value.str "Job completed successfully")])
    else if msg_type = some (Value.str "error") then
      (s, [])
    else
      (s, [])

/-- True when the `type` field hits one of the three handled branches. -/
def isKnownType : Option Value → Bool
  | some (Value.str t) => t == "registered" || t == "job" || t == "error"
  | _ => false

/-- The `jobId` the agent would echo for an inbound message, when that
message is a well-formed `job` assignment; `none` otherwise. -/
def Raw.jobIdOf : Raw → Option Value
  | Raw.parsed data =>
    if pyGet data "type" = some (Value.str "job")
    then some ((pyGet data "jobId").getD Value.null)
    else none
  | Raw.malformed _ => none

/-- The receive loop `async for message in websocket: await
self.handle_message(message)`, run on an inbound message list with no
interleaved heartbeat ticks: the outbound messages it produces. -/
def processMsgs (s : AgentState) : List Raw → List OutMsg
  | [] => []
  | raw :: rest =>
    (handle_message s raw).2 ++ processMsgs (handle_message s raw).1 rest

/-- One scheduler decision inside a connection epoch: either the heartbeat
task runs (sending one heartbeat carrying the given `utcnow().isoformat()`
timestamp), or the receive loop delivers the next inbound message. -/
inductive Step where
  | hb (ts : String)
  | recv

/-- The concurrent part of `connect` after registration: the heartbeat task
(`asyncio.create_task(self.send_heartbeat())`) interleaved with the receive
loop, the interleaving given by the schedule.  `self.running` is `True`
throughout the epoch, so every scheduled heartbeat tick sends; when the
inbound stream ends the connection is closed, `self.running` is cleared and
the heartbeat task cancelled, so nothing further is sent.  An exhausted
schedule means the heartbeat task is never scheduled again. -/
def runSession (s : AgentState) : List Step → List Raw → List OutMsg
  | _, [] => []
  | [], inbox => processMsgs s inbox
  | Step.hb ts :: sch, inbox =>
    OutMsg.heartbeat (nodeIdValue s) ts :: runSession s sch inbox
  | Step.recv :: sch, raw :: rest =>
    (handle_message s raw).2 ++ runSession (handle_message s raw).1 sch rest

/-- The outbound trace of one `connect` call that establishes the
connection: `self.running = True`, then `register()` sends exactly one
registration message, then the heartbeat task and the receive loop run
interleaved.  `self.node_id` is `None` at this point — `connect` is called
once, on the state produced by `__init__`. -/
def connect_trace (env : HostEnv) (nv : Option (Int × List Char))
    (token : String) (sched : List Step) (inbox : List Raw) : List OutMsg :=
  OutMsg.register token (get_host_info env nv) ::
    runSession { token := token, node_id := none, running := true } sched inbox

/-- `send_heartbeat` with wall-clock times (seconds), transcribing
`while self.running: send(...); await asyncio.sleep(10)` with exact sleeps:
starting at time `t`, each iteration sends one heartbeat stamped by `ts`
and the next iteration runs 10 seconds later; `n` bounds the number of
iterations observed.  The state is the one current during the epoch (the
interleaving with `handle_message` is modelled by `runSession`; here only
the cadence and the `running` flag matter). -/
def send_heartbeat_trace (s : AgentState) (ts : Nat → String) :
    Nat → Nat → List (Nat × OutMsg)
  | _, 0 => []
  | t, n + 1 =>
    if s.running then
      (t, OutMsg.heartbeat (nodeIdValue s) (ts t)) ::
        send_heartbeat_trace s ts (t + 10) n
    else []

/-- How one `asyncio.run(agent.connect())` call in `main` can end:
`ended` — the inbound iterator finished, `connect` returned normally;
`closed` — `ConnectionClosed` was raised in the receive loop, caught and
logged at line 185, `connect` returned normally;
`exn` — any other exception (failure to connect, a failed send in
`register`, ...) was logged at line 192 and re-raised;
`interrupted` — `KeyboardInterrupt`. -/
inductive ConnectOutcome where
  | ended
  | closed (e : String)
  | exn (e : String)
  | interrupted
deriving DecidableEq, Repr

/-- The process exit status `main` produces for a `connect` outcome: the
`try` around `asyncio.run` turns a `KeyboardInterrupt` into a graceful
shutdown and any other exception into `sys.exit(1)`; a normal return falls
off the end of `main` and the process exits 0. -/
def mainExit : ConnectOutcome → Nat
  | ConnectOutcome.exn _ => 1
  | _ => 0

/-- One whole run of `main`: it calls `asyncio.run(agent.connect())`
exactly once — there is no retry or reconnection loop anywhere in `main`
or `connect` — and then exits.  The result is (number of connection
attempts made, process exit status). -/
def main_run (o : ConnectOutcome) : Nat × Nat :=
  (1, mainExit o)

/-! ## Observation helpers -/

/-- The number of outbound messages that are a `jobResult` carrying the
given `jobId`. -/
def resultsFor (v : Value) (out : List OutMsg) : Nat :=
  out.countP (fun m => m.jobIdField == some v)

/-- The number of outbound messages with the given `type` field. -/
def countType (tag : String) (out : List OutMsg) : Nat :=
  out.countP (fun m => m.typeTag == tag)

/-! ## Lemmas about the message handler -/

theorem hm_malformed (s : AgentState) (e : String) :
    handle_message s (Raw.malformed e) = (s, []) := rfl

theorem hm_registered (s : AgentState) (data : Data)
    (h : pyGet data "type" = some (Value.str "registered")) :
    handle_message s (Raw.parsed data) =
      ({ s with node_id := pyGet data "nodeId" }, []) := by
  simp [handle_message, h]

theorem hm_job (s : AgentState) (data : Data)
    (h : pyGet data "type" = some (Value.str "job")) :
    handle_message s (Raw.parsed data) =
      (s, [OutMsg.jobResult ((pyGet data "jobId").getD Value.null) (nodeIdValue s)
            "completed" (Value.str "Job completed successfully")]) := by
  simp [handle_message, h]

theorem hm_error (s : AgentState) (data : Data)
    (h : pyGet data "type" = some (Value.str "error")) :
    handle_message s (Raw.parsed data) = (s, []) := by
  simp [handle_message, h]

theorem hm_unknown (s : AgentState) (data : Data)
    (h : isKnownType (pyGet data "type") = false) :
    handle_message s (Raw.parsed data) = (s, []) := by
  cases hv : pyGet data "type" with
  | none => simp [handle_message, hv]
  | some v =>
    cases v
    case str t =>
      rw [hv] at h
      simp [isKnownType] at h
      obtain ⟨⟨h1, h2⟩, h3⟩ := h
      simp [handle_message, hv, h1, h2, h3]
    all_goals simp [handle_message, hv]

/-- The outbound part of one `handle_message` call: one `jobResult` for a
job assignment, nothing for everything else. -/
theorem hm_snd (s : AgentState) (data : Data) :
    (handle_message s (Raw.parsed data)).2 =
      if pyGet data "type" = some (Value.str "job")
      then [OutMsg.jobResult ((pyGet data "jobId").getD Value.null) (nodeIdValue s)
            "completed" (Value.str "Job completed successfully")]
      else [] := by
  by_cases h2 : pyGet data "type" = some (Value.str "job")
  · simp [hm_job s data h2, h2]
  · rw [if_neg h2]
    by_cases h1 : pyGet data "type" = some (Value.str "registered")
    · simp [hm_registered s data h1]
    · by_cases h3 : pyGet data "type" = some (Value.str "error")
      · simp [hm_error s data h3]
      · simp [handle_message, h1, h2, h3]

/-- Every message `handle_message` ever sends is a `jobResult` with status
`completed`. -/
theorem hm_out_shape (s : AgentState) (raw : Raw) (m : OutMsg)
    (hm : m ∈ (handle_message s raw).2) :
    m.typeTag = "jobResult" ∧ m.statusField = some "completed" := by
  cases raw with
  | malformed e => simp [handle_message] at hm
  | parsed data =>
    rw [hm_snd] at hm
    by_cases h : pyGet data "type" = some (Value.str "job")
    · rw [if_pos h] at hm
      simp at hm
      subst hm
      exact ⟨rfl, rfl⟩
    · rw [if_neg h] at hm
      simp at hm

theorem resultsFor_handle (v : Value) (s : AgentState) (raw : Raw) :
    resultsFor v (handle_message s raw).2 = ((Raw.jobIdOf raw).toList).count v := by
  cases raw with
  | malformed e => rfl
  | parsed data =>
    rw [resultsFor, hm_snd]
    unfold Raw.jobIdOf
    by_cases h : pyGet data "type" = some (Value.str "job") <;>
      simp [h, OutMsg.jobIdField, List.count, List.countP_cons]

theorem countType_handle (s : AgentState) (raw : Raw) :
    countType "register" (handle_message s raw).2 = 0 := by
  cases raw with
  | malformed e => rfl
  | parsed data =>
    rw [countType, hm_snd]
    by_cases h : pyGet data "type" = some (Value.str "job") <;>
      simp [h, OutMsg.typeTag]

/-! ## Lemmas about the receive loop and the session -/

theorem resultsFor_processMsgs (v : Value) (inbox : List Raw) :
    ∀ s : AgentState,
      resultsFor v (processMsgs s inbox) = (inbox.filterMap Raw.jobIdOf).count v := by
  induction inbox with
  | nil => intro s; rfl
  | cons raw rest ih =>
    intro s
    show resultsFor v ((handle_message s raw).2 ++
      processMsgs (handle_message s raw).1 rest) = _
    rw [resultsFor, List.countP_append, ← resultsFor, ← resultsFor,
      resultsFor_handle, ih, List.filterMap_cons]
    cases Raw.jobIdOf raw with
    | none => simp
    | some j => simp [List.count_cons]; omega

theorem resultsFor_runSession (v : Value) (sched : List Step) :
    ∀ (inbox : List Raw) (s : AgentState),
      resultsFor v (runSession s sched inbox) = (inbox.filterMap Raw.jobIdOf).count v := by
  induction sched with
  | nil =>
    intro inbox s
    cases inbox with
    | nil => rfl
    | cons raw rest => exact resultsFor_processMsgs v (raw :: rest) s
  | cons step sch ih =>
    intro inbox s
    cases inbox with
    | nil => cases step <;> rfl
    | cons raw rest =>
      cases step with
      | hb ts =>
        show resultsFor v (OutMsg.heartbeat (nodeIdValue s) ts ::
          runSession s sch (raw :: rest)) = _
        rw [resultsFor, List.countP_cons, ← resultsFor, ih]
        simp [OutMsg.jobIdField]
      | recv =>
        show resultsFor v ((handle_message s raw).2 ++
          runSession (handle_message s raw).1 sch rest) = _
        rw [resultsFor, List.countP_append, ← resultsFor, ← resultsFor,
          resultsFor_handle, ih, List.filterMap_cons]
        cases Raw.jobIdOf raw with
        | none => simp
        | some j => simp [List.count_cons]; omega

theorem countType_processMsgs (inbox : List Raw) :
    ∀ s : AgentState, countType "register" (processMsgs s inbox) = 0 := by
  induction inbox with
  | nil => intro s; rfl
  | cons raw rest ih =>
    intro s
    show countType "register" ((handle_message s raw).2 ++
      processMsgs (handle_message s raw).1 rest) = _
    rw [countType, List.countP_append, ← countType, ← countType,
      countType_handle, ih]

theorem countType_runSession (sched : List Step) :
    ∀ (inbox : List Raw) (s : AgentState),
      countType "register" (runSession s sched inbox) = 0 := by
  induction sched with
  | nil =>
    intro inbox s
    cases inbox with
    | nil => rfl
    | cons raw rest => exact countType_processMsgs (raw :: rest) s
  | cons step sch ih =>
    intro inbox s
    cases inbox with
    | nil => cases step <;> rfl
    | cons raw rest =>
      cases step with
      | hb ts =>
        show countType "register" (OutMsg.heartbeat (nodeIdValue s) ts ::
          runSession s sch (raw :: rest)) = _
        rw [countType, List.countP_cons, ← countType, ih]
        simp [OutMsg.typeTag]
      | recv =>
        show countType "register" ((handle_message s raw).2 ++
          runSession (handle_message s raw).1 sch rest) = _
        rw [countType, List.countP_append, ← countType, ← countType,
          countType_handle, ih]

/-! ## Lemma about the heartbeat cadence -/

theorem send_heartbeat_trace_fst (s : AgentState) (ts : Nat → String)
    (hr : s.running = true) :
    ∀ (n t i : Nat), i < n →
      ((send_heartbeat_trace s ts t n).map Prod.fst)[i]? = some (t + 10 * i) := by
  intro n
  induction n with
  | zero => intro t i h; omega
  | succ n ih =>
    intro t i h
    show ((if s.running then
      (t, OutMsg.heartbeat (nodeIdValue s) (ts t)) ::
        send_heartbeat_trace s ts (t + 10) n else []).map Prod.fst)[i]? = _
    rw [if_pos hr]
    cases i with
    | zero => simp
    | succ j =>
      have hj := ih (t + 10) j (by omega)
      simp only [List.map_cons, List.getElem?_cons_succ]
      rw [hj]
      congr 1
      omega

/-! ## Claims -/

/-- Claim C1, counterexample: the claim says an `error` message from the
server makes the agent exit non-zero and send nothing further.  In the
code, after receiving the server error (invalid/expired token text) the
agent goes on to answer a subsequent job assignment with a `jobResult`,
and the session ending normally exits the process with status 0. -/
theorem error_message_then_further_send :
    processMsgs { token := "tok", node_id := some (Value.str "N1"), running := true }
      [Raw.parsed [("type", Value.str "error"),
        ("message", Value.str "Invalid or expired token")],
       Raw.parsed [("type", Value.str "job"), ("jobId", Value.str "j7")]] =
      [OutMsg.jobResult (Value.str "j7") (Value.str "N1") "completed"
        (Value.str "Job completed successfully")] ∧
    mainExit ConnectOutcome.ended = 0 :=
  ⟨rfl, rfl⟩

/-- Claim C1, amended: on receiving an `error` message the agent only logs
it — the state is unchanged, nothing is sent in response, the handler has
no termination path, and the agent continues processing subsequent
messages of the session. -/
theorem error_message_logged_and_ignored (s : AgentState) (data : Data)
    (sch : List Step) (inbox : List Raw)
    (h : pyGet data "type" = some (Value.str "error")) :
    handle_message s (Raw.parsed data) = (s, []) ∧
    runSession s (Step.recv :: sch) (Raw.parsed data :: inbox) =
      runSession s sch inbox := by
  have he := hm_error s data h
  refine ⟨he, ?_⟩
  show (handle_message s (Raw.parsed data)).2 ++
    runSession (handle_message s (Raw.parsed data)).1 sch inbox = _
  rw [he]
  simp

/-- Witness for C1 at a concrete error message and a following job. -/
theorem error_message_logged_and_ignored_witness :
    handle_message { token := "tok", node_id := some (Value.str "N1"), running := true }
      (Raw.parsed [("type", Value.str "error"),
        ("message", Value.str "Invalid or expired token")]) =
      ({ token := "tok", node_id := some (Value.str "N1"), running := true }, []) ∧
    runSession { token := "tok", node_id := some (Value.str "N1"), running := true }
      [Step.recv]
      [Raw.parsed [("type", Value.str "error"),
        ("message", Value.str "Invalid or expired token")],
       Raw.parsed [("type", Value.str "job"), ("jobId", Value.str "j7")]] =
      runSession { token := "tok", node_id := some (Value.str "N1"), running := true }
        [] [Raw.parsed [("type", Value.str "job"), ("jobId", Value.str "j7")]] :=
  error_message_logged_and_ignored _ _ _ _ rfl

/-- Claim C2, counterexample: the claim says a transport failure never
terminates the agent and starts an exponential-backoff reconnection loop.
In the code a connection error makes `connect` re-raise and `main` call
`sys.exit(1)`: the process terminates with status 1 after its single
connection attempt — there is no reconnection. -/
theorem transport_failure_terminates :
    main_run (ConnectOutcome.exn "Connection refused") = (1, 1) ∧
    mainExit (ConnectOutcome.exn "Connection refused") ≠ 0 :=
  ⟨rfl, by decide⟩

/-- Claim C2, amended: the agent never reconnects.  `main` makes exactly
one connection attempt; an exception on the transport terminates the
process with exit status 1, while a closed connection (or a normally ended
message stream, or an interrupt) ends the run with exit status 0. -/
theorem no_reconnect_single_attempt (e : String) :
    main_run (ConnectOutcome.exn e) = (1, 1) ∧
    main_run (ConnectOutcome.closed e) = (1, 0) ∧
    main_run ConnectOutcome.ended = (1, 0) ∧
    main_run ConnectOutcome.interrupted = (1, 0) :=
  ⟨rfl, rfl, rfl, rfl⟩

/-- Claim C3, counterexample: the claim says a job whose script never
terminates is forcibly stopped at `timeoutSeconds` and reported
`TimedOut`.  In the code the script and timeout fields of a job assignment
are never read and nothing is executed: a job carrying a non-terminating
script and `timeoutSeconds` 5 is reported with status `completed`. -/
theorem nonterminating_job_not_timedout :
    (handle_message { token := "tok", node_id := some (Value.str "N1"), running := true }
      (Raw.parsed [("type", Value.str "job"), ("jobId", Value.str "j1"),
        ("script", Value.str "while true; do sleep 1; done"),
        ("timeoutSeconds", Value.num 5)])).2 =
      [OutMsg.jobResult (Value.str "j1") (Value.str "N1") "completed"
        (Value.str "Job completed successfully")] ∧
    "completed" ≠ "TimedOut" ∧ "completed" ≠ "Failed" :=
  ⟨rfl, by decide, by decide⟩

/-- Claim C3, amended: every job assignment, whatever its script or
timeout fields, is answered (after a fixed simulated 2-second sleep) by a
single `jobResult` of status `completed`; the handler never produces a
`TimedOut` or `Failed` status — every status it ever sends is
`completed`. -/
theorem job_always_reported_completed (s : AgentState) (data : Data) (raw : Raw)
    (h : pyGet data "type" = some (Value.str "job")) :
    (handle_message s (Raw.parsed data)).2 =
      [OutMsg.jobResult ((pyGet data "jobId").getD Value.null) (nodeIdValue s)
        "completed" (Value.str "Job completed successfully")] ∧
    ∀ m ∈ (handle_message s raw).2, m.statusField = some "completed" :=
  ⟨by rw [hm_snd, if_pos h], fun m hm => (hm_out_shape s raw m hm).2⟩

/-- Witness for C3 at a concrete job assignment. -/
theorem job_always_reported_completed_witness :
    (handle_message { token := "tok", node_id := some (Value.str "N1"), running := true }
      (Raw.parsed [("type", Value.str "job"), ("jobId", Value.str "j1"),
        ("script", Value.str "while true; do sleep 1; done"),
        ("timeoutSeconds", Value.num 5)])).2 =
      [OutMsg.jobResult (Value.str "j1") (Value.str "N1") "completed"
        (Value.str "Job completed successfully")] ∧
    ∀ m ∈ (handle_message { token := "tok", node_id := some (Value.str "N1"), running := true }
      (Raw.parsed [("type", Value.str "registered"), ("nodeId", Value.str "N2")])).2,
      m.statusField = some "completed" :=
  job_always_reported_completed _ _ _ rfl

/-- Claim C4, counterexample: the claim says every `jobResult` carries a
structured `result` object with fields logs, exitCode, executionHash and
logsHash.  In the code the `result` field of the one `jobResult` sent is
the plain string `Job completed successfully` — not an object, so it has
no such fields. -/
theorem jobresult_result_is_plain_string :
    (handle_message { token := "tok", node_id := some (Value.str "N1"), running := true }
      (Raw.parsed [("type", Value.str "job"), ("jobId", Value.str "j7")])).2 =
      [OutMsg.jobResult (Value.str "j7") (Value.str "N1") "completed"
        (Value.str "Job completed successfully")] ∧
    OutMsg.resultField (OutMsg.jobResult (Value.str "j7") (Value.str "N1") "completed"
      (Value.str "Job completed successfully")) =
      some (Value.str "Job completed successfully") :=
  ⟨rfl, rfl⟩

/-- Claim C4, amended: every `jobResult` the agent sends contains `jobId`
(echoed from the assignment, null when absent), `nodeId` (the current node
id, null before registration), `status` (always `completed`) and a
`result` field that is the fixed plain string `Job completed successfully`
rather than a structured object. -/
theorem jobresult_field_shape (s : AgentState) (data : Data)
    (h : pyGet data "type" = some (Value.str "job")) :
    ∃ m, (handle_message s (Raw.parsed data)).2 = [m] ∧
      m.typeTag = "jobResult" ∧
      m.jobIdField = some ((pyGet data "jobId").getD Value.null) ∧
      m.nodeIdField = some (nodeIdValue s) ∧
      m.statusField = some "completed" ∧
      m.resultField = some (Value.str "Job completed successfully") :=
  ⟨OutMsg.jobResult ((pyGet data "jobId").getD Value.null) (nodeIdValue s)
      "completed" (Value.str "Job completed successfully"),
    by rw [hm_snd, if_pos h], rfl, rfl, rfl, rfl, rfl⟩

/-- Witness for C4 at a concrete job assignment. -/
theorem jobresult_field_shape_witness :
    ∃ m, (handle_message { token := "tok", node_id := some (Value.str "N1"), running := true }
      (Raw.parsed [("type", Value.str "job"), ("jobId", Value.str "j7")])).2 = [m] ∧
      m.typeTag = "jobResult" ∧
      m.jobIdField = some (Value.str "j7") ∧
      m.nodeIdField = some (Value.str "N1") ∧
      m.statusField = some "completed" ∧
      m.resultField = some (Value.str "Job completed successfully") :=
  jobresult_field_shape _ _ rfl

/-- Claim C5, counterexample: the claim says no heartbeat is sent before
the agent is registered.  In the code the heartbeat task is started right
after the registration request, before any acknowledgment: on the schedule
the event loop actually produces (the freshly created heartbeat task runs
at the first await), a heartbeat with `nodeId` null goes out before the
`registered` message is even handled. -/
theorem heartbeat_sent_before_registered :
    runSession { token := "tok", node_id := none, running := true }
      [Step.hb "2025-01-01T00:00:00", Step.recv]
      [Raw.parsed [("type", Value.str "registered"), ("nodeId", Value.str "N1")]] =
      [OutMsg.heartbeat Value.null "2025-01-01T00:00:00"] :=
  rfl

/-- Claim C5, amended: heartbeats are sent whenever the heartbeat task
runs during a live session — starting immediately after the registration
request and independently of whether a `registered` acknowledgment has
arrived (`nodeId` null until it does) — and while the loop runs the
wall-clock gap between consecutive heartbeat sends is exactly the fixed
10-second interval. -/
theorem heartbeat_unconditional_and_cadence (s : AgentState) (ts0 : String)
    (ts : Nat → String) (sch : List Step) (raw : Raw) (rest : List Raw)
    (t n i : Nat) (hr : s.running = true) (hi : i < n) :
    runSession s (Step.hb ts0 :: sch) (raw :: rest) =
      OutMsg.heartbeat (nodeIdValue s) ts0 :: runSession s sch (raw :: rest) ∧
    ((send_heartbeat_trace s ts t n).map Prod.fst)[i]? = some (t + 10 * i) :=
  ⟨rfl, send_heartbeat_trace_fst s ts hr n t i hi⟩

/-- Witness for C5: an unregistered but running state, the second of three
heartbeat ticks starting at time 0 happening at time 10. -/
theorem heartbeat_unconditional_and_cadence_witness :
    runSession { token := "tok", node_id := none, running := true }
      [Step.hb "T0", Step.recv]
      [Raw.parsed [("type", Value.str "registered"), ("nodeId", Value.str "N1")],
       Raw.malformed "x"] =
      OutMsg.heartbeat Value.null "T0" ::
        runSession { token := "tok", node_id := none, running := true } []
          [Raw.parsed [("type", Value.str "registered"), ("nodeId", Value.str "N1")],
           Raw.malformed "x"] ∧
    ((send_heartbeat_trace { token := "tok", node_id := none, running := true }
      (fun _ => "T") 0 3).map Prod.fst)[1]? = some 10 :=
  heartbeat_unconditional_and_cadence _ _ _ _ _ _ _ _ _ rfl (by decide)

/-- Claim C6, confirmed: within one connection epoch, an inbound stream
whose job assignments carry a given job id exactly once produces exactly
one `jobResult` with that job id — never zero, never more than one —
whatever the heartbeat interleaving and whatever other (registered, error,
unknown, malformed) messages arrive. -/
theorem exactly_one_jobresult_per_job_id (s : AgentState) (sched : List Step)
    (inbox : List Raw) (v : Value)
    (h : (inbox.filterMap Raw.jobIdOf).count v = 1) :
    resultsFor v (runSession s sched inbox) = 1 := by
  rw [resultsFor_runSession]
  exact h

/-- Witness for C6 on a session with one registration ack, one job and one
malformed frame. -/
theorem exactly_one_jobresult_per_job_id_witness :
    resultsFor (Value.str "j1")
      (runSession { token := "tok", node_id := none, running := true }
        [Step.hb "T0", Step.recv, Step.recv, Step.recv]
        [Raw.parsed [("type", Value.str "registered"), ("nodeId", Value.str "N1")],
         Raw.parsed [("type", Value.str "job"), ("jobId", Value.str "j1")],
         Raw.malformed "not json"]) = 1 :=
  exactly_one_jobresult_per_job_id _ _ _ _ (by decide)

/-- Claim C7, counterexample: the claim says the node id, once set by a
`registered` acknowledgment, is never changed by a later inbound message.
In the code every `registered` message assigns `self.node_id`: a second
acknowledgment with `nodeId` B overwrites the previously set A. -/
theorem second_registered_overwrites_node_id :
    handle_message { token := "tok", node_id := some (Value.str "A"), running := true }
      (Raw.parsed [("type", Value.str "registered"), ("nodeId", Value.str "B")]) =
      ({ token := "tok", node_id := some (Value.str "B"), running := true }, []) ∧
    some (Value.str "B") ≠ some (Value.str "A") :=
  ⟨rfl, by decide⟩

/-- Claim C7, amended: every `registered` message sets the node id to that
message's `nodeId` field (None when the field is absent), overwriting any
previously assigned id, and sends nothing. -/
theorem registered_message_sets_node_id (s : AgentState) (data : Data)
    (h : pyGet data "type" = some (Value.str "registered")) :
    (handle_message s (Raw.parsed data)).1.node_id = pyGet data "nodeId" ∧
    (handle_message s (Raw.parsed data)).2 = [] := by
  rw [hm_registered s data h]
  exact ⟨rfl, rfl⟩

/-- Witness for C7: a state whose node id is already A receiving a
`registered` message carrying B. -/
theorem registered_message_sets_node_id_witness :
    (handle_message { token := "tok", node_id := some (Value.str "A"), running := true }
      (Raw.parsed [("type", Value.str "registered"), ("nodeId", Value.str "B")])).1.node_id =
      some (Value.str "B") ∧
    (handle_message { token := "tok", node_id := some (Value.str "A"), running := true }
      (Raw.parsed [("type", Value.str "registered"), ("nodeId", Value.str "B")])).2 = [] :=
  registered_message_sets_node_id _ _ rfl

/-- Claim C8, confirmed: the (single) transition into the connected state
sends exactly one registration message — it is the first outbound message
of the connection and no other `register`-typed message ever follows in
the session — and it carries the token and a hostInfo whose hostname, os,
arch and gpus fields are the collected host data and the detected GPU
list. -/
theorem single_register_message_per_connection (env : HostEnv)
    (nv : Option (Int × List Char)) (token : String) (sched : List Step)
    (inbox : List Raw) :
    (connect_trace env nv token sched inbox).head? =
      some (OutMsg.register token (get_host_info env nv)) ∧
    countType "register" (connect_trace env nv token sched inbox) = 1 ∧
    (get_host_info env nv).hostname = env.hostname ∧
    (get_host_info env nv).os = env.os ∧
    (get_host_info env nv).arch = env.arch ∧
    (get_host_info env nv).gpus = detect_gpus nv := by
  refine ⟨rfl, ?_, rfl, rfl, rfl, rfl⟩
  show countType "register" (OutMsg.register token (get_host_info env nv) ::
    runSession { token := token, node_id := none, running := true } sched inbox) = 1
  rw [countType, List.countP_cons, ← countType, countType_runSession]
  simp [OutMsg.typeTag]

/-- Claim C9, confirmed: the message handler swallows every error — a
frame whose dispatch raises (malformed JSON, or a payload that is not an
object) changes nothing and sends nothing, a parsed message whose `type`
is absent, non-string or unknown is silently ignored, and after such a
frame the session continues exactly as if it had not arrived. -/
theorem handler_ignores_malformed_and_unknown (s : AgentState) (e : String)
    (data : Data) (sch : List Step) (inbox : List Raw) :
    handle_message s (Raw.malformed e) = (s, []) ∧
    (isKnownType (pyGet data "type") = false →
      handle_message s (Raw.parsed data) = (s, [])) ∧
    runSession s (Step.recv :: sch) (Raw.malformed e :: inbox) =
      runSession s sch inbox := by
  refine ⟨hm_malformed s e, fun h => hm_unknown s data h, ?_⟩
  show (handle_message s (Raw.malformed e)).2 ++
    runSession (handle_message s (Raw.malformed e)).1 sch inbox = _
  rw [hm_malformed]
  simp

/-- Witness for C9: a frame that fails to parse and a message of unknown
type `shutdown`. -/
theorem handler_ignores_malformed_and_unknown_witness :
    handle_message { token := "tok", node_id := none, running := true }
      (Raw.malformed "Expecting value: line 1 column 1") =
      ({ token := "tok", node_id := none, running := true }, []) ∧
    handle_message { token := "tok", node_id := none, running := true }
      (Raw.parsed [("type", Value.str "shutdown")]) =
      ({ token := "tok", node_id := none, running := true }, []) ∧
    runSession { token := "tok", node_id := none, running := true }
      [Step.recv] [Raw.malformed "Expecting value: line 1 column 1",
        Raw.parsed [("type", Value.str "job"), ("jobId", Value.str "j1")]] =
      runSession { token := "tok", node_id := none, running := true } []
        [Raw.parsed [("type", Value.str "job"), ("jobId", Value.str "j1")]] :=
  ⟨(handler_ignores_malformed_and_unknown { token := "tok", node_id := none, running := true }
      "Expecting value: line 1 column 1" [("type", Value.str "shutdown")] []
      [Raw.parsed [("type", Value.str "job"), ("jobId", Value.str "j1")]]).1,
   (handler_ignores_malformed_and_unknown { token := "tok", node_id := none, running := true }
      "Expecting value: line 1 column 1" [("type", Value.str "shutdown")] []
      [Raw.parsed [("type", Value.str "job"), ("jobId", Value.str "j1")]]).2.1 (by decide),
   (handler_ignores_malformed_and_unknown { token := "tok", node_id := none, running := true }
      "Expecting value: line 1 column 1" [("type", Value.str "shutdown")] []
      [Raw.parsed [("type", Value.str "job"), ("jobId", Value.str "j1")]]).2.2⟩

/-- Every GPU entry the line loop produces comes from a non-empty line
with at least two comma-separated fields, its model and vram the stripped
first and second field. -/
theorem parse_gpu_lines_mem (g : Gpu) :
    ∀ ls : List (List Char), g ∈ parse_gpu_lines ls →
      ∃ line ∈ ls, line ≠ [] ∧
        ∃ p0 p1 rest, pySplitCh ',' line = p0 :: p1 :: rest ∧
          g.model = pyStrip p0 ∧ g.vram = pyStrip p1 := by
  intro ls
  induction ls with
  | nil => intro h; simp [parse_gpu_lines] at h
  | cons line rest ih =>
    intro h
    unfold parse_gpu_lines at h
    split at h
    · obtain ⟨l, hl, hprops⟩ := ih h
      exact ⟨l, List.mem_cons_of_mem _ hl, hprops⟩
    · next hne =>
      split at h
      · next p0 p1 ps hsp =>
        rcases List.mem_cons.mp h with hg | hg
        · subst hg
          exact ⟨line, List.mem_cons_self _ _, hne, p0, p1, ps, hsp, rfl, rfl⟩
        · obtain ⟨l, hl, hprops⟩ := ih hg
          exact ⟨l, List.mem_cons_of_mem _ hl, hprops⟩
      · next hsp =>
        obtain ⟨l, hl, hprops⟩ := ih h
        exact ⟨l, List.mem_cons_of_mem _ hl, hprops⟩

/-- Claim C10, confirmed: GPU detection is total — when the `nvidia-smi`
call raises (absent binary, 5-second timeout, ...) the bare except yields
the empty list, a non-zero return code yields the empty list, and every
element of the returned list has exactly the fields model and vram, taken
as the whitespace-stripped first and second comma-separated fields of a
non-empty line of the stripped standard output of a zero-returncode
run. -/
theorem detect_gpus_total_and_element_shape :
    detect_gpus none = [] ∧
    (∀ (rc : Int) (stdout : List Char), rc ≠ 0 →
      detect_gpus (some (rc, stdout)) = []) ∧
    (∀ (nv : Option (Int × List Char)) (g : Gpu), g ∈ detect_gpus nv →
      ∃ rc stdout, nv = some (rc, stdout) ∧ rc = 0 ∧
        ∃ line ∈ pySplitCh '\n' (pyStrip stdout), line ≠ [] ∧
          ∃ p0 p1 rest, pySplitCh ',' line = p0 :: p1 :: rest ∧
            g.model = pyStrip p0 ∧ g.vram = pyStrip p1) := by
  refine ⟨rfl, ?_, ?_⟩
  · intro rc stdout h
    simp [detect_gpus, h]
  · intro nv g hg
    cases nv with
    | none => simp [detect_gpus] at hg
    | some p =>
      obtain ⟨rc, stdout⟩ := p
      by_cases h0 : rc = 0
      · subst h0
        refine ⟨0, stdout, rfl, rfl, ?_⟩
        apply parse_gpu_lines_mem
        simpa [detect_gpus] using hg
      · simp [detect_gpus, h0] at hg

/-- Witness for C10: a failed run yields no GPUs; on a successful run with
one well-formed line and one junk line, the one returned GPU comes from
the well-formed line with both fields stripped. -/
theorem detect_gpus_total_and_element_shape_witness :
    detect_gpus (some (1, "oops".toList)) = [] ∧
    (∃ rc stdout,
      (some ((0 : Int), " NVIDIA A100, 40960 MiB \njunk ".toList) :
        Option (Int × List Char)) = some (rc, stdout) ∧ rc = 0 ∧
      ∃ line ∈ pySplitCh '\n' (pyStrip stdout), line ≠ [] ∧
        ∃ p0 p1 rest, pySplitCh ',' line = p0 :: p1 :: rest ∧
          (Gpu.mk "NVIDIA A100".toList "40960 MiB".toList).model = pyStrip p0 ∧
          (Gpu.mk "NVIDIA A100".toList "40960 MiB".toList).vram = pyStrip p1) :=
  ⟨detect_gpus_total_and_element_shape.2.1 1 "oops".toList (by decide),
   detect_gpus_total_and_element_shape.2.2
     (some (0, " NVIDIA A100, 40960 MiB \njunk ".toList))
     (Gpu.mk "NVIDIA A100".toList "40960 MiB".toList) (by decide)⟩

end Hypernode
